import Mathlib

/-!
Shallow embedding of the social-events-server core
(`src/routes/eventsRoutes.js` and the `/join-event`, `/joined` handlers of
`api/index.js`), together with proofs of the specified properties.

Modelling choices:
* Timestamps (`Date` values) are `Int` milliseconds since the epoch.
* The two Mongo collections `events` and `joinedEvents` are lists of records;
  `insertOne` appends, `findOne` is `List.find?`, `updateOne` rewrites the
  first matching element, `find(...).sort({eventDate: 1})` is a filter
  followed by an ascending insertion sort on the `eventDate` key.
* A request-body `eventDate` string is embedded as the pair of what the code
  observes of it: its truthiness (`raw`, the string itself, `""` meaning
  falsy/missing) and the result of `new Date(raw)` (`parsed`, `none` when
  `isNaN(d.getTime())`).
* `ObjectId.isValid` on a string argument accepts 12-character strings and
  24-character hex strings (mongodb driver behaviour).
* Each handler becomes a pure function of the database state and the current
  time `now`; HTTP statuses are mapped to the spec's error taxonomy:
  400 "Invalid …/required" → validationError, 404 → notFoundError,
  403 → authorizationError, 400 "already joined" → conflictError.
  Mutating handlers return the (possibly unchanged) database next to the
  discriminated result, so failed calls visibly leave the state intact.
-/

namespace SocialEvents

/-- Hex-digit test used by the ObjectId well-formedness check. -/
def isHexChar (c : Char) : Bool :=
  c.isDigit || ('a' ≤ c && c ≤ 'f') || ('A' ≤ c && c ≤ 'F')

/-- `ObjectId.isValid(s)` for a string `s` (mongodb driver): true for
12-character strings and for 24-character hexadecimal strings. -/
def objectIdIsValid (s : String) : Bool :=
  s.length == 12 || (s.length == 24 && s.toList.all isHexChar)

/-- A request-body date string as the code observes it: `raw` is the string
itself (`""` standing for a missing/falsy field) and `parsed` is the result
of `new Date(raw)` — `none` when `isNaN(d.getTime())`. -/
structure DateInput where
  raw : String
  parsed : Option Int
  deriving Repr, DecidableEq

/-- An `events` collection document (routes/eventsRoutes.js POST /). -/
structure Event where
  _id : String
  title : String
  description : String
  eventType : String
  thumbnail : String
  location : String
  eventDate : Int
  creatorEmail : String
  createdAt : Int
  deriving Repr, DecidableEq

/-- A `joinedEvents` collection document (api/index.js POST /join-event). -/
structure Participation where
  eventId : String
  userEmail : String
  joinedAt : Int
  eventTitle : String
  eventType : String
  thumbnail : String
  location : String
  eventDate : Int
  creatorEmail : String
  deriving Repr, DecidableEq

/-- The persistent state: the two logical collections. -/
structure DB where
  events : List Event
  joined : List Participation
  deriving Repr, DecidableEq

/-- The spec's error taxonomy (§7): ValidationError→400, NotFoundError→404,
AuthorizationError→403, ConflictError→400-duplicate. -/
inductive ApiError where
  | validationError
  | notFoundError
  | authorizationError
  | conflictError
  deriving Repr, DecidableEq

/-- Insert `x` into a list assumed ascending on `key`, keeping it ascending. -/
def insertByKey {α : Type} (key : α → Int) (x : α) : List α → List α
  | [] => [x]
  | y :: ys => if key x ≤ key y then x :: y :: ys else y :: insertByKey key x ys

/-- Ascending insertion sort on `key`; models Mongo `sort({field: 1})`. -/
def sortByKey {α : Type} (key : α → Int) : List α → List α
  | [] => []
  | x :: xs => insertByKey key x (sortByKey key xs)

/-- Request body of POST /events. -/
structure CreateReq where
  title : String
  description : String
  eventType : String
  thumbnail : String
  location : String
  eventDate : DateInput
  creatorEmail : String
  deriving Repr, DecidableEq

/-- Request body of PUT /events/:id. -/
structure UpdateReq where
  title : String
  description : String
  eventType : String
  thumbnail : String
  location : String
  eventDate : DateInput
  requestorEmail : String
  deriving Repr, DecidableEq

/-- POST /events: validates fields, date parse, future date; inserts one
document with `createdAt = now`. `newId` is the store-generated `insertedId`.
Returns the created event (success payload) and the new state. -/
def createEvent (db : DB) (now : Int) (newId : String) (req : CreateReq) :
    Except ApiError Event × DB :=
  if req.title == "" || req.description == "" || req.eventType == "" ||
      req.thumbnail == "" || req.location == "" || req.eventDate.raw == "" ||
      req.creatorEmail == "" then
    (.error .validationError, db)
  else
    match req.eventDate.parsed with
    | none => (.error .validationError, db)
    | some d =>
      if d ≤ now then (.error .validationError, db)
      else
        let e : Event :=
          { _id := newId, title := req.title, description := req.description,
            eventType := req.eventType, thumbnail := req.thumbnail,
            location := req.location, eventDate := d,
            creatorEmail := req.creatorEmail, createdAt := now }
        (.ok e, { db with events := db.events ++ [e] })

/-- GET /events/:id: 400 (validation) on a malformed id, 404 when no event
matches, otherwise the event. -/
def getEvent (db : DB) (id : String) : Except ApiError Event :=
  if !objectIdIsValid id then .error .validationError
  else
    match db.events.find? (fun e => e._id == id) with
    | none => .error .notFoundError
    | some e => .ok e

/-- GET /events/upcoming: events with `eventDate` strictly after `now`,
ascending by `eventDate`. -/
def listUpcoming (db : DB) (now : Int) : List Event :=
  sortByKey (fun e => e.eventDate) (db.events.filter (fun e => now < e.eventDate))

/-- Overwrite the first element satisfying `p` with `f` of it (Mongo
`updateOne`). -/
def updateFirst {α : Type} (p : α → Bool) (f : α → α) : List α → List α
  | [] => []
  | x :: xs => if p x then f x :: xs else x :: updateFirst p f xs

/-- The `$set` document of PUT /events/:id: the six mutable fields. -/
def setMutableFields (req : UpdateReq) (d : Int) (e : Event) : Event :=
  { e with title := req.title, description := req.description,
           eventType := req.eventType, thumbnail := req.thumbnail,
           location := req.location, eventDate := d }

/-- PUT /events/:id, in the code's check order: id well-formedness,
`requestorEmail` presence, existence, authorization (creator match), field
presence, date parse, future date; then `updateOne` with the `$set` above.
Returns the updated event (payload) and the new state. -/
def updateEvent (db : DB) (now : Int) (id : String) (req : UpdateReq) :
    Except ApiError Event × DB :=
  if !objectIdIsValid id then (.error .validationError, db)
  else if req.requestorEmail == "" then (.error .validationError, db)
  else
    match db.events.find? (fun e => e._id == id) with
    | none => (.error .notFoundError, db)
    | some existing =>
      if existing.creatorEmail != req.requestorEmail then
        (.error .authorizationError, db)
      else if req.title == "" || req.description == "" || req.eventType == "" ||
          req.thumbnail == "" || req.location == "" || req.eventDate.raw == "" then
        (.error .validationError, db)
      else
        match req.eventDate.parsed with
        | none => (.error .validationError, db)
        | some d =>
          if d ≤ now then (.error .validationError, db)
          else
            (.ok (setMutableFields req d existing),
             { db with
                events := updateFirst (fun e => e._id == id)
                  (setMutableFields req d) db.events })

/-- POST /join-event: presence of both fields, id well-formedness, event
existence, duplicate pre-check on `(eventId, userEmail)`; on success appends
the snapshot document with `joinedAt = now`. -/
def joinEvent (db : DB) (now : Int) (eventId userEmail : String) :
    Except ApiError Participation × DB :=
  if eventId == "" || userEmail == "" then (.error .validationError, db)
  else if !objectIdIsValid eventId then (.error .validationError, db)
  else
    match db.events.find? (fun e => e._id == eventId) with
    | none => (.error .notFoundError, db)
    | some event =>
      match db.joined.find?
          (fun p => p.eventId == event._id && p.userEmail == userEmail) with
      | some _ => (.error .conflictError, db)
      | none =>
        let j : Participation :=
          { eventId := event._id, userEmail := userEmail, joinedAt := now,
            eventTitle := event.title, eventType := event.eventType,
            thumbnail := event.thumbnail, location := event.location,
            eventDate := event.eventDate, creatorEmail := event.creatorEmail }
        (.ok j, { db with joined := db.joined ++ [j] })

/-- GET /joined?email=…: the caller's participations, ascending by the
snapshot `eventDate`. -/
def listJoinedByUser (db : DB) (userEmail : String) :
    Except ApiError (List Participation) :=
  if userEmail == "" then .error .validationError
  else .ok (sortByKey (fun p => p.eventDate)
    (db.joined.filter (fun p => p.userEmail == userEmail)))

/-- Number of participations recorded for a given `(eventId, userEmail)`
pair. -/
def pairCount (db : DB) (eid em : String) : Nat :=
  (db.joined.filter (fun p => p.eventId == eid && p.userEmail == em)).length

/-- The uniqueness invariant: at most one participation per pair. -/
def UniquePairs (db : DB) : Prop :=
  ∀ eid em : String, pairCount db eid em ≤ 1

/-! ### Concrete data reused by witnesses -/

/-- A well-formed 24-character hexadecimal ObjectId string. -/
def goodId : String := "0123456789abcdef01234567"

/-- A concrete stored event used by witnesses. -/
def evW : Event :=
  { _id := goodId, title := "Cleanup", description := "Park cleanup",
    eventType := "Cleanup", thumbnail := "https://example.com/t.png",
    location := "Park", eventDate := 1000, creatorEmail := "a@x.com",
    createdAt := 0 }

/-- A database holding just `evW` and no participations. -/
def dbW : DB := { events := [evW], joined := [] }

/-- A fully valid update request from the creator of `evW`. -/
def reqW : UpdateReq :=
  { title := "New title", description := "New description",
    eventType := "Plantation", thumbnail := "https://example.com/u.png",
    location := "Square", eventDate := { raw := "2030-01-01", parsed := some 2000 },
    requestorEmail := "a@x.com" }

/-- A fully valid create request. -/
def reqC : CreateReq :=
  { title := "Cleanup", description := "Park cleanup", eventType := "Cleanup",
    thumbnail := "https://example.com/t.png", location := "Park",
    eventDate := { raw := "2030-01-01", parsed := some 1000 },
    creatorEmail := "a@x.com" }

/-- The participation produced by joining `evW` as `u@x.com` at time 50. -/
def jW : Participation :=
  { eventId := goodId, userEmail := "u@x.com", joinedAt := 50,
    eventTitle := "Cleanup", eventType := "Cleanup",
    thumbnail := "https://example.com/t.png", location := "Park",
    eventDate := 1000, creatorEmail := "a@x.com" }

/-- `dbW` after the join recorded in `jW`. -/
def dbW2 : DB := { events := [evW], joined := [jW] }

/-- `evW` after a successful update with `reqW` (date parsed to 2000). -/
def evW2 : Event :=
  { _id := goodId, title := "New title", description := "New description",
    eventType := "Plantation", thumbnail := "https://example.com/u.png",
    location := "Square", eventDate := 2000, creatorEmail := "a@x.com",
    createdAt := 0 }

/-- `dbW` after that successful update. -/
def dbW3 : DB := { events := [evW2], joined := [] }

/-! ### Lemmas about the sort used by the list endpoints -/

theorem insertByKey_perm {α : Type} (key : α → Int) (x : α) (l : List α) :
    (insertByKey key x l).Perm (x :: l) := by
  induction l with
  | nil => simp [insertByKey]
  | cons y ys ih =>
    simp only [insertByKey]
    split
    · exact List.Perm.refl _
    · exact (List.Perm.cons y ih).trans (List.Perm.swap x y ys)

theorem sortByKey_perm {α : Type} (key : α → Int) (l : List α) :
    (sortByKey key l).Perm l := by
  induction l with
  | nil => exact List.Perm.refl _
  | cons x xs ih =>
    exact (insertByKey_perm key x _).trans (List.Perm.cons x ih)

theorem mem_sortByKey {α : Type} (key : α → Int) (l : List α) (a : α) :
    a ∈ sortByKey key l ↔ a ∈ l :=
  (sortByKey_perm key l).mem_iff

theorem insertByKey_pairwise {α : Type} (key : α → Int) (x : α) (l : List α)
    (h : l.Pairwise (fun a b => key a ≤ key b)) :
    (insertByKey key x l).Pairwise (fun a b => key a ≤ key b) := by
  induction l with
  | nil => simp [insertByKey]
  | cons y ys ih =>
    simp only [insertByKey]
    rcases List.pairwise_cons.mp h with ⟨hy, hys⟩
    split
    · rename_i hxy
      refine List.pairwise_cons.mpr ⟨?_, h⟩
      intro b hb
      rcases List.mem_cons.mp hb with hb | hb
      · exact hb ▸ hxy
      · exact le_trans hxy (hy b hb)
    · rename_i hxy
      push_neg at hxy
      refine List.pairwise_cons.mpr ⟨?_, ih hys⟩
      intro b hb
      rcases List.mem_cons.mp ((insertByKey_perm key x ys).mem_iff.mp hb) with hb | hb
      · exact hb ▸ le_of_lt hxy
      · exact hy b hb

theorem sortByKey_pairwise {α : Type} (key : α → Int) (l : List α) :
    (sortByKey key l).Pairwise (fun a b => key a ≤ key b) := by
  induction l with
  | nil => simp [sortByKey]
  | cons x xs ih => exact insertByKey_pairwise key x _ ih

theorem sortByKey_countP {α : Type} (key : α → Int) (p : α → Bool) (l : List α) :
    (sortByKey key l).countP p = l.countP p :=
  (sortByKey_perm key l).countP_eq p

/-! ### Helper lemmas about the operations -/

/-- A well-formed ObjectId string is non-empty (its length is 12 or 24). -/
theorem objectIdIsValid_ne_empty {s : String} (h : objectIdIsValid s = true) :
    s ≠ "" := by
  intro he
  subst he
  simp [objectIdIsValid] at h

theorem find?_append_sing {α : Type} (p : α → Bool) (l : List α) (a : α)
    (h : ∀ x ∈ l, p x = false) (ha : p a = true) :
    (l ++ [a]).find? p = some a := by
  induction l with
  | nil => simp [List.find?, ha]
  | cons x xs ih =>
    have hx := h x (by simp)
    rw [List.cons_append, List.find?_cons_of_neg _ (by simp [hx])]
    exact ih (fun y hy => h y (by simp [hy]))

theorem updateFirst_length {α : Type} (p : α → Bool) (f : α → α) (l : List α) :
    (updateFirst p f l).length = l.length := by
  induction l with
  | nil => rfl
  | cons x xs ih =>
    simp only [updateFirst]
    split
    · simp
    · simp [ih]

theorem updateFirst_getD {α : Type} (p : α → Bool) (f : α → α) (l : List α)
    (i : Nat) (d : α) :
    (updateFirst p f l).getD i d = l.getD i d ∨
    ((updateFirst p f l).getD i d = f (l.getD i d) ∧ p (l.getD i d) = true) := by
  induction l generalizing i with
  | nil => left; rfl
  | cons x xs ih =>
    simp only [updateFirst]
    by_cases hx : p x = true
    · rw [if_pos hx]
      cases i with
      | zero => right; exact ⟨rfl, hx⟩
      | succ n => left; rfl
    · rw [if_neg hx]
      cases i with
      | zero => left; rfl
      | succ n => exact ih n

theorem pairCount_zero_of_find?_none (db : DB) (eid em : String)
    (h : db.joined.find? (fun p => p.eventId == eid && p.userEmail == em) = none) :
    pairCount db eid em = 0 := by
  rw [pairCount, List.length_eq_zero, List.filter_eq_nil_iff]
  intro p hp
  exact List.find?_eq_none.mp h p hp

/-- Inversion of a successful join: all checks passed and the state grew by
exactly the snapshot document. -/
theorem joinEvent_ok_elim (db : DB) (now : Int) (eid em : String) (j : Participation)
    (db' : DB) (h : joinEvent db now eid em = (Except.ok j, db')) :
    ∃ ev : Event, eid ≠ "" ∧ em ≠ "" ∧ objectIdIsValid eid = true
      ∧ db.events.find? (fun e => e._id == eid) = some ev
      ∧ db.joined.find? (fun p => p.eventId == ev._id && p.userEmail == em) = none
      ∧ ev._id = eid
      ∧ j = { eventId := ev._id, userEmail := em, joinedAt := now,
              eventTitle := ev.title, eventType := ev.eventType,
              thumbnail := ev.thumbnail, location := ev.location,
              eventDate := ev.eventDate, creatorEmail := ev.creatorEmail }
      ∧ db' = { db with joined := db.joined ++ [j] } := by
  rw [joinEvent] at h
  split at h
  · simp at h
  · split at h
    · simp at h
    · rename_i hcond hvalid
      split at h
      · simp at h
      · rename_i ev hfind
        split at h
        · simp at h
        · rename_i hnone
          simp only [Prod.mk.injEq, Except.ok.injEq] at h
          obtain ⟨hj, hdb⟩ := h
          have hpair : (ev._id == eid) = true := by
            have := List.find?_some hfind
            simpa using this
          have hcond' : ¬(eid = "" ∨ em = "") := by
            simpa using hcond
          push_neg at hcond'
          refine ⟨ev, hcond'.1, hcond'.2, by simpa using hvalid, hfind, hnone,
                  by simpa using hpair, hj.symm, ?_⟩
          rw [← hdb, ← hj]

/-! ### C1 — at most one participation per (eventId, userEmail) pair -/

/-- C1: every mutating operation preserves the at-most-one-participation-per-
(eventId, userEmail) invariant when executed sequentially (create and update
never touch the participation store; join checks for a duplicate before
writing), and a successful join followed immediately by a second join with
the identical pair yields a conflict error and leaves the state unchanged,
after which ListByUser returns exactly one participation for that event. -/
theorem participation_uniqueness :
    (∀ (db : DB) (now : Int) (eid em : String),
      UniquePairs db → UniquePairs (joinEvent db now eid em).snd)
    ∧ (∀ (db : DB) (now : Int) (newId : String) (req : CreateReq),
      (createEvent db now newId req).snd.joined = db.joined)
    ∧ (∀ (db : DB) (now : Int) (id : String) (req : UpdateReq),
      (updateEvent db now id req).snd.joined = db.joined)
    ∧ (∀ (db : DB) (now now2 : Int) (eid em : String) (j : Participation) (db' : DB),
      joinEvent db now eid em = (Except.ok j, db') →
      joinEvent db' now2 eid em = (Except.error ApiError.conflictError, db')
      ∧ ∃ l : List Participation, listJoinedByUser db' em = Except.ok l
        ∧ l.countP (fun p => p.eventId == eid) = 1) := by
  refine ⟨?_, ?_, ?_, ?_⟩
  · intro db now eid em hU
    rw [joinEvent]
    split
    · exact hU
    · split
      · exact hU
      · split
        · exact hU
        · rename_i ev hfind
          split
          · exact hU
          · rename_i hnone
            intro eid' em'
            simp only [pairCount, List.filter_append, List.length_append]
            by_cases hq : ((ev._id == eid') && (em == em')) = true
            · simp only [Bool.and_eq_true, beq_iff_eq] at hq
              obtain ⟨hq1, hq2⟩ := hq
              subst hq1 hq2
              have hz := pairCount_zero_of_find?_none db ev._id em hnone
              rw [pairCount] at hz
              rw [hz]
              simp [List.filter]
            · have : (List.filter (fun p => p.eventId == eid' && p.userEmail == em')
                  [({ eventId := ev._id, userEmail := em, joinedAt := now,
                      eventTitle := ev.title, eventType := ev.eventType,
                      thumbnail := ev.thumbnail, location := ev.location,
                      eventDate := ev.eventDate, creatorEmail := ev.creatorEmail } :
                    Participation)]).length = 0 := by
                have hb : (ev._id == eid' && em == em') = false := by
                  simpa using hq
                simp [List.filter, hb]
              rw [this]
              have := hU eid' em'
              rw [pairCount] at this
              simpa using this
  · intro db now newId req
    rw [createEvent]
    split
    · rfl
    · split
      · rfl
      · split
        · rfl
        · rfl
  · intro db now id req
    rw [updateEvent]
    split
    · rfl
    · split
      · rfl
      · split
        · rfl
        · split
          · rfl
          · split
            · rfl
            · split
              · rfl
              · split
                · rfl
                · rfl
  · intro db now now2 eid em j db' h
    obtain ⟨ev, hne, hme, hv, hf, hn, hevid, hj, hdb⟩ :=
      joinEvent_ok_elim db now eid em j db' h
    have hqj : ((fun p => p.eventId == ev._id && p.userEmail == em) j) = true := by
      subst hj; simp
    have hpre : ∀ x ∈ db.joined,
        ((fun p => p.eventId == ev._id && p.userEmail == em) x) = false := by
      intro x hx
      have := List.find?_eq_none.mp hn x hx
      simpa using this
    have hjfind : (db.joined ++ [j]).find?
        (fun p => p.eventId == ev._id && p.userEmail == em) = some j :=
      find?_append_sing _ _ _ hpre hqj
    constructor
    · rw [joinEvent]
      have hfind' : db'.events.find? (fun e => e._id == eid) = some ev := by
        rw [hdb]; exact hf
      have hjfind' : db'.joined.find?
          (fun p => p.eventId == ev._id && p.userEmail == em) = some j := by
        rw [hdb]; exact hjfind
      simp [hne, hme, hv, hfind', hjfind']
    · refine ⟨sortByKey (fun p => p.eventDate)
          (db'.joined.filter (fun p => p.userEmail == em)), ?_, ?_⟩
      · rw [listJoinedByUser, if_neg (by simpa using hme)]
      · rw [sortByKey_countP]
        rw [hdb]
        simp only [List.filter_append, List.countP_append]
        have h1 : (db.joined.filter (fun p => p.userEmail == em)).countP
            (fun p => p.eventId == eid) = 0 := by
          rw [List.countP_eq_zero]
          intro p hp
          have hpmem := List.mem_filter.mp hp
          have hnotpair := List.find?_eq_none.mp hn p hpmem.1
          simp only [Bool.and_eq_true, beq_iff_eq, not_and] at hnotpair
          simp only [beq_iff_eq] at hpmem ⊢
          intro heq
          exact hnotpair (hevid ▸ heq) hpmem.2
        have h2 : (List.filter (fun p => p.userEmail == em) [j]).countP
            (fun p => p.eventId == eid) = 1 := by
          subst hj
          simp [List.filter, List.countP, List.countP.go, hevid]
        rw [h1, h2]

/-- Witness for C1: the double join of `evW` by `u@x.com` concretely yields
one success then one conflict, and ListByUser sees one record. -/
theorem participation_uniqueness_witness :
    joinEvent dbW 50 goodId "u@x.com" = (Except.ok jW, dbW2)
    ∧ (joinEvent dbW2 60 goodId "u@x.com" = (Except.error ApiError.conflictError, dbW2)
       ∧ ∃ l : List Participation, listJoinedByUser dbW2 "u@x.com" = Except.ok l
         ∧ l.countP (fun p => p.eventId == goodId) = 1) :=
  ⟨rfl, participation_uniqueness.2.2.2 dbW 50 60 goodId "u@x.com" jW dbW2 rfl⟩

/-! ### C2 — successful join stores a timestamped snapshot -/

/-- C2: for a well-formed id of an existing event, a non-empty user email and
no prior participation for the pair, join succeeds, appends exactly one new
participation whose `joinedAt` is the current time and whose snapshot fields
equal the corresponding fields of the referenced event as stored. -/
theorem joinEvent_success_snapshot (db : DB) (now : Int) (eid em : String) (ev : Event)
    (hv : objectIdIsValid eid = true) (hem : em ≠ "")
    (hf : db.events.find? (fun e => e._id == eid) = some ev)
    (hn : db.joined.find? (fun p => p.eventId == ev._id && p.userEmail == em) = none) :
    ∃ j : Participation,
      joinEvent db now eid em = (Except.ok j, { db with joined := db.joined ++ [j] })
      ∧ j.eventId = ev._id ∧ j.userEmail = em ∧ j.joinedAt = now
      ∧ j.eventTitle = ev.title ∧ j.eventType = ev.eventType
      ∧ j.thumbnail = ev.thumbnail ∧ j.location = ev.location
      ∧ j.eventDate = ev.eventDate ∧ j.creatorEmail = ev.creatorEmail := by
  refine ⟨{ eventId := ev._id, userEmail := em, joinedAt := now,
            eventTitle := ev.title, eventType := ev.eventType,
            thumbnail := ev.thumbnail, location := ev.location,
            eventDate := ev.eventDate, creatorEmail := ev.creatorEmail },
          ?_, rfl, rfl, rfl, rfl, rfl, rfl, rfl, rfl, rfl⟩
  rw [joinEvent]
  simp [objectIdIsValid_ne_empty hv, hem, hv, hf, hn]

/-- Witness for C2 at the concrete database `dbW`. -/
theorem joinEvent_success_snapshot_witness :
    objectIdIsValid goodId = true ∧ ("u@x.com" : String) ≠ ""
    ∧ dbW.events.find? (fun e => e._id == goodId) = some evW
    ∧ dbW.joined.find? (fun p => p.eventId == evW._id && p.userEmail == "u@x.com") = none
    ∧ ∃ j : Participation,
        joinEvent dbW 50 goodId "u@x.com" =
          (Except.ok j, { dbW with joined := dbW.joined ++ [j] })
        ∧ j.eventId = evW._id ∧ j.userEmail = "u@x.com" ∧ j.joinedAt = 50
        ∧ j.eventTitle = evW.title ∧ j.eventType = evW.eventType
        ∧ j.thumbnail = evW.thumbnail ∧ j.location = evW.location
        ∧ j.eventDate = evW.eventDate ∧ j.creatorEmail = evW.creatorEmail :=
  ⟨by decide, by decide, rfl, rfl,
   joinEvent_success_snapshot dbW 50 goodId "u@x.com" evW (by decide) (by decide) rfl rfl⟩

/-! ### C3 — malformed identifiers in Get and Update -/

/-- C3 counterexample: for the malformed id `"bad"`, both `Get` and `Update`
fail with `validationError` (HTTP 400, "Invalid event id."), not with
`notFoundError` as the claim states. -/
theorem malformed_id_cex :
    getEvent { events := [], joined := [] } "bad" =
        Except.error ApiError.validationError
    ∧ (updateEvent { events := [], joined := [] } 0 "bad" reqW).fst =
        Except.error ApiError.validationError
    ∧ ApiError.validationError ≠ ApiError.notFoundError :=
  ⟨rfl, rfl, by decide⟩

/-- C3 amended: for every string id that is not a well-formed identifier,
`Get(id)` fails with `validationError` and `Update(id, …)` fails with
`validationError` (the code answers 400 "Invalid event id." in both routes);
the state is unchanged. -/
theorem malformed_id_validation (db : DB) (now : Int) (id : String)
    (req : UpdateReq) (h : objectIdIsValid id = false) :
    getEvent db id = Except.error ApiError.validationError
    ∧ updateEvent db now id req = (Except.error ApiError.validationError, db) := by
  constructor
  · rw [getEvent]
    simp [h]
  · rw [updateEvent]
    simp [h]

/-- Witness for C3's amended theorem at the concrete malformed id `"zz"`. -/
theorem malformed_id_validation_witness :
    objectIdIsValid "zz" = false
    ∧ (getEvent dbW "zz" = Except.error ApiError.validationError
       ∧ updateEvent dbW 0 "zz" reqW = (Except.error ApiError.validationError, dbW)) :=
  ⟨by decide, malformed_id_validation dbW 0 "zz" reqW (by decide)⟩

/-! ### C4 — order of the checks in Update -/

/-- C4 counterexample: a well-formed id of a non-existent event combined with
a missing `requestorEmail` yields `validationError` ("requestorEmail is
required."), not the `notFoundError` predicted by the claimed check order —
the code checks `requestorEmail` presence before existence. -/
theorem update_order_cex :
    (updateEvent { events := [], joined := [] } 0 goodId
        { reqW with requestorEmail := "" }).fst = Except.error ApiError.validationError
    ∧ ApiError.validationError ≠ ApiError.notFoundError :=
  ⟨rfl, by decide⟩

/-- C4 amended: Update's checks run in the fixed order identifier
well-formedness, then `requestorEmail` presence, then existence, then
authorization, then field validation; each conjunct returns the error of
the first failing check, regardless of the remaining inputs. -/
theorem updateEvent_check_order (db : DB) (now : Int) (id : String) (req : UpdateReq) :
    (objectIdIsValid id = false →
      updateEvent db now id req = (Except.error ApiError.validationError, db))
    ∧ (objectIdIsValid id = true → req.requestorEmail = "" →
      updateEvent db now id req = (Except.error ApiError.validationError, db))
    ∧ (objectIdIsValid id = true → req.requestorEmail ≠ "" →
      db.events.find? (fun e => e._id == id) = none →
      updateEvent db now id req = (Except.error ApiError.notFoundError, db))
    ∧ (∀ ev : Event, objectIdIsValid id = true → req.requestorEmail ≠ "" →
      db.events.find? (fun e => e._id == id) = some ev →
      ev.creatorEmail ≠ req.requestorEmail →
      updateEvent db now id req = (Except.error ApiError.authorizationError, db))
    ∧ (∀ ev : Event, objectIdIsValid id = true → req.requestorEmail ≠ "" →
      db.events.find? (fun e => e._id == id) = some ev →
      ev.creatorEmail = req.requestorEmail →
      (req.title = "" ∨ req.description = "" ∨ req.eventType = "" ∨
       req.thumbnail = "" ∨ req.location = "" ∨ req.eventDate.raw = "" ∨
       req.eventDate.parsed = none ∨
       (∃ d : Int, req.eventDate.parsed = some d ∧ d ≤ now)) →
      updateEvent db now id req = (Except.error ApiError.validationError, db)) := by
  refine ⟨?_, ?_, ?_, ?_, ?_⟩
  · intro h
    rw [updateEvent]; simp [h]
  · intro hv hr
    rw [updateEvent]; simp [hv, hr]
  · intro hv hr hf
    rw [updateEvent]; simp [hv, hr, hf]
  · intro ev hv hr hf hne
    rw [updateEvent]; simp [hv, hr, hf, hne]
  · intro ev hv hr hf heq hbad
    rw [updateEvent]
    simp only [hv, hr, hf, heq]
    rcases hbad with h | h | h | h | h | h | h | ⟨d, hd, hdle⟩
    · simp [hv, hr, h]
    · simp [hv, hr, h]
    · simp [hv, hr, h]
    · simp [hv, hr, h]
    · simp [hv, hr, h]
    · simp [hv, hr, h]
    · by_cases hF : (req.title == "" || req.description == "" || req.eventType == "" ||
          req.thumbnail == "" || req.location == "" || req.eventDate.raw == "") = true
      · simp [hv, hr, hF, h]
      · simp [hv, hr, hF, h]
    · by_cases hF : (req.title == "" || req.description == "" || req.eventType == "" ||
          req.thumbnail == "" || req.location == "" || req.eventDate.raw == "") = true
      · simp [hv, hr, hF, hd, hdle]
      · simp [hv, hr, hF, hd, hdle]

/-- Witness for C4's amended theorem: the existence check fires (with a
present `requestorEmail`) on an empty store. -/
theorem updateEvent_check_order_witness :
    objectIdIsValid goodId = true
    ∧ reqW.requestorEmail ≠ ""
    ∧ ({ events := [], joined := [] } : DB).events.find? (fun e => e._id == goodId) = none
    ∧ updateEvent { events := [], joined := [] } 0 goodId reqW =
        (Except.error ApiError.notFoundError, { events := [], joined := [] }) :=
  ⟨by decide, by decide, rfl,
   (updateEvent_check_order { events := [], joined := [] } 0 goodId reqW).2.2.1
     (by decide) (by decide) rfl⟩

/-! ### C5 — update by a non-creator -/

/-- C5 counterexample: the empty `requestorEmail` differs from the stored
`creatorEmail` and all other supplied fields are valid, yet the call fails
with `validationError` ("requestorEmail is required."), not
`authorizationError`. -/
theorem update_auth_empty_requestor_cex :
    ("" : String) ≠ evW.creatorEmail
    ∧ (updateEvent dbW 0 goodId { reqW with requestorEmail := "" }).fst =
        Except.error ApiError.validationError
    ∧ ApiError.validationError ≠ ApiError.authorizationError :=
  ⟨by decide, rfl, by decide⟩

/-- C5 amended: for every existing event and every non-empty
`requestorEmail` different from the stored `creatorEmail`, Update fails with
`authorizationError` even if all other supplied fields are valid, and the
whole store — in particular the stored event — is unchanged after the failed
call. -/
theorem update_wrong_creator_authorization (db : DB) (now : Int) (id : String)
    (req : UpdateReq) (ev : Event)
    (hv : objectIdIsValid id = true)
    (hr : req.requestorEmail ≠ "")
    (hf : db.events.find? (fun e => e._id == id) = some ev)
    (hne : req.requestorEmail ≠ ev.creatorEmail) :
    updateEvent db now id req = (Except.error ApiError.authorizationError, db) := by
  rw [updateEvent]
  simp [hv, hr, hf, Ne.symm hne]

/-- Witness for C5's amended theorem: `b@x.com` may not update `evW`. -/
theorem update_wrong_creator_authorization_witness :
    objectIdIsValid goodId = true
    ∧ ("b@x.com" : String) ≠ ""
    ∧ dbW.events.find? (fun e => e._id == goodId) = some evW
    ∧ ("b@x.com" : String) ≠ evW.creatorEmail
    ∧ updateEvent dbW 0 goodId { reqW with requestorEmail := "b@x.com" } =
        (Except.error ApiError.authorizationError, dbW) :=
  ⟨by decide, by decide, rfl, by decide,
   update_wrong_creator_authorization dbW 0 goodId _ evW (by decide) (by decide) rfl
     (by decide)⟩

/-! ### C6 — Create: validation iff and success behaviour -/

/-- C6: Create fails with `validationError` (leaving the state unchanged)
exactly when some required field is empty, the date does not parse, or the
parsed date is ≤ now; otherwise it succeeds, appends exactly one event with
`createdAt = now` and the request's fields, and a subsequent Get of the
returned identity (well formed and fresh) yields that event, whose
`createdAt` is ≤ any later read instant. -/
theorem createEvent_spec (db : DB) (now nowRead : Int) (newId : String) (req : CreateReq) :
    (createEvent db now newId req = (Except.error ApiError.validationError, db) ↔
      (req.title = "" ∨ req.description = "" ∨ req.eventType = "" ∨
       req.thumbnail = "" ∨ req.location = "" ∨ req.eventDate.raw = "" ∨
       req.creatorEmail = "" ∨ req.eventDate.parsed = none ∨
       (∃ d : Int, req.eventDate.parsed = some d ∧ d ≤ now)))
    ∧ (∀ d : Int, req.title ≠ "" → req.description ≠ "" → req.eventType ≠ "" →
        req.thumbnail ≠ "" → req.location ≠ "" → req.eventDate.raw ≠ "" →
        req.creatorEmail ≠ "" → req.eventDate.parsed = some d → now < d →
        ∃ e : Event,
          createEvent db now newId req =
            (Except.ok e, { db with events := db.events ++ [e] })
          ∧ e._id = newId ∧ e.title = req.title ∧ e.description = req.description
          ∧ e.eventType = req.eventType ∧ e.thumbnail = req.thumbnail
          ∧ e.location = req.location ∧ e.eventDate = d
          ∧ e.creatorEmail = req.creatorEmail ∧ e.createdAt = now
          ∧ (objectIdIsValid newId = true →
             (∀ e' ∈ db.events, e'._id ≠ newId) →
             getEvent { db with events := db.events ++ [e] } newId = Except.ok e)
          ∧ (now ≤ nowRead → e.createdAt ≤ nowRead)) := by
  constructor
  · constructor
    · intro herr
      by_contra hno
      push_neg at hno
      obtain ⟨h1, h2, h3, h4, h5, h6, h7, h8, h9⟩ := hno
      rcases hp : req.eventDate.parsed with _ | d
      · exact h8 hp
      · have hd : ¬ d ≤ now := by
          intro hle
          have h10 := h9 d
          simp [hp] at h10
          omega
        rw [createEvent] at herr
        simp [h1, h2, h3, h4, h5, h6, h7, hp, hd] at herr
    · intro hbad
      rw [createEvent]
      rcases hbad with h | h | h | h | h | h | h | h | ⟨d, hd, hdle⟩
      · simp [h]
      · simp [h]
      · simp [h]
      · simp [h]
      · simp [h]
      · simp [h]
      · simp [h]
      · by_cases hF : (req.title == "" || req.description == "" || req.eventType == "" ||
            req.thumbnail == "" || req.location == "" || req.eventDate.raw == "" ||
            req.creatorEmail == "") = true
        · simp [hF]
        · simp [hF, h]
      · by_cases hF : (req.title == "" || req.description == "" || req.eventType == "" ||
            req.thumbnail == "" || req.location == "" || req.eventDate.raw == "" ||
            req.creatorEmail == "") = true
        · simp [hF]
        · simp [hF, hd, hdle]
  · intro d h1 h2 h3 h4 h5 h6 h7 hp hd
    refine ⟨{ _id := newId, title := req.title, description := req.description,
              eventType := req.eventType, thumbnail := req.thumbnail,
              location := req.location, eventDate := d,
              creatorEmail := req.creatorEmail, createdAt := now }, ?_,
            rfl, rfl, rfl, rfl, rfl, rfl, rfl, rfl, rfl, ?_, ?_⟩
    · rw [createEvent]
      simp [h1, h2, h3, h4, h5, h6, h7, hp, not_le.mpr hd]
    · intro hvalid hfresh
      rw [getEvent]
      simp only [hvalid, Bool.not_true, Bool.false_eq_true, if_false]
      rw [find?_append_sing _ _ _ (fun x hx => by simpa using hfresh x hx) (by simp)]
    · intro hle
      simpa using hle

/-- Witness for C6: a valid create on the empty store at time 0, read
at time 5. -/
theorem createEvent_spec_witness :
    reqC.eventDate.parsed = some 1000 ∧ (0 : Int) < 1000
    ∧ ∃ e : Event,
        createEvent { events := [], joined := [] } 0 goodId reqC =
          (Except.ok e, { events := [] ++ [e], joined := [] })
        ∧ e._id = goodId ∧ e.title = reqC.title ∧ e.description = reqC.description
        ∧ e.eventType = reqC.eventType ∧ e.thumbnail = reqC.thumbnail
        ∧ e.location = reqC.location ∧ e.eventDate = 1000
        ∧ e.creatorEmail = reqC.creatorEmail ∧ e.createdAt = 0
        ∧ (objectIdIsValid goodId = true →
           (∀ e' ∈ ({ events := [], joined := [] } : DB).events, e'._id ≠ goodId) →
           getEvent { events := [] ++ [e], joined := [] } goodId = Except.ok e)
        ∧ ((0 : Int) ≤ 5 → e.createdAt ≤ 5) :=
  ⟨rfl, by decide,
   (createEvent_spec { events := [], joined := [] } 0 5 goodId reqC).2 1000
     (by decide) (by decide) (by decide) (by decide) (by decide) (by decide)
     (by decide) rfl (by decide)⟩

/-! ### C7 — Join discriminates its failures -/

/-- C7: join fails with `validationError` when either field is missing and
when the eventId is malformed (never `notFoundError` there), with
`notFoundError` when the well-formed id matches no event, and with
`conflictError` when a participation already exists for the pair; the state
is unchanged in each case. -/
theorem joinEvent_error_discrimination (db : DB) (now : Int) (eid em : String) :
    (eid = "" ∨ em = "" →
      joinEvent db now eid em = (Except.error ApiError.validationError, db))
    ∧ (objectIdIsValid eid = false →
      joinEvent db now eid em = (Except.error ApiError.validationError, db))
    ∧ (objectIdIsValid eid = true → em ≠ "" →
      db.events.find? (fun e => e._id == eid) = none →
      joinEvent db now eid em = (Except.error ApiError.notFoundError, db))
    ∧ (∀ (ev : Event) (q : Participation), objectIdIsValid eid = true → em ≠ "" →
      db.events.find? (fun e => e._id == eid) = some ev →
      db.joined.find? (fun p => p.eventId == ev._id && p.userEmail == em) = some q →
      joinEvent db now eid em = (Except.error ApiError.conflictError, db)) := by
  refine ⟨?_, ?_, ?_, ?_⟩
  · intro h
    rcases h with h | h
    · rw [joinEvent]; simp [h]
    · rw [joinEvent]; simp [h]
  · intro h
    by_cases he : eid = ""
    · rw [joinEvent]; simp [he]
    · by_cases hm : em = ""
      · rw [joinEvent]; simp [hm]
      · rw [joinEvent]; simp [he, hm, h]
  · intro hv hm hf
    rw [joinEvent]
    simp [objectIdIsValid_ne_empty hv, hm, hv, hf]
  · intro ev q hv hm hf hj
    rw [joinEvent]
    simp [objectIdIsValid_ne_empty hv, hm, hv, hf, hj]

/-- Witness for C7: a well-formed id on the empty store is not found. -/
theorem joinEvent_error_discrimination_witness :
    objectIdIsValid goodId = true ∧ ("u@x.com" : String) ≠ ""
    ∧ ({ events := [], joined := [] } : DB).events.find? (fun e => e._id == goodId) = none
    ∧ joinEvent { events := [], joined := [] } 0 goodId "u@x.com" =
        (Except.error ApiError.notFoundError, { events := [], joined := [] }) :=
  ⟨by decide, by decide, rfl,
   (joinEvent_error_discrimination { events := [], joined := [] } 0 goodId
     "u@x.com").2.2.1 (by decide) (by decide) rfl⟩

/-! ### C8 — ListUpcoming filters strictly and sorts ascending -/

/-- C8: for every store state and every instant `now`, ListUpcoming returns
exactly the events whose `eventDate` is strictly greater than `now` (as a
permutation of that filter, hence the same multiset), sorted ascending by
`eventDate`; an event whose `eventDate` equals `now` is excluded. -/
theorem listUpcoming_spec (db : DB) (now : Int) :
    (listUpcoming db now).Perm (db.events.filter (fun e => now < e.eventDate))
    ∧ (∀ e : Event, e ∈ listUpcoming db now ↔ e ∈ db.events ∧ now < e.eventDate)
    ∧ (listUpcoming db now).Pairwise (fun a b => a.eventDate ≤ b.eventDate)
    ∧ (∀ e : Event, e ∈ db.events → e.eventDate = now → e ∉ listUpcoming db now) := by
  have hmem : ∀ e : Event, e ∈ listUpcoming db now ↔ e ∈ db.events ∧ now < e.eventDate := by
    intro e
    rw [listUpcoming, mem_sortByKey, List.mem_filter]
    simp
  refine ⟨sortByKey_perm _ _, hmem, sortByKey_pairwise _ _, ?_⟩
  intro e _ heq hin
  have h := (hmem e).mp hin
  rw [heq] at h
  exact lt_irrefl now h.2

/-- Witness for C8 at the concrete store `dbW` and instant 0. -/
theorem listUpcoming_spec_witness :
    (listUpcoming dbW 0).Perm (dbW.events.filter (fun e => (0 : Int) < e.eventDate))
    ∧ (∀ e : Event, e ∈ listUpcoming dbW 0 ↔ e ∈ dbW.events ∧ (0 : Int) < e.eventDate)
    ∧ (listUpcoming dbW 0).Pairwise (fun a b => a.eventDate ≤ b.eventDate)
    ∧ (∀ e : Event, e ∈ dbW.events → e.eventDate = 0 → e ∉ listUpcoming dbW 0) :=
  listUpcoming_spec dbW 0

/-! ### C9 — update touches only the mutable fields of the target event -/

/-- C9: a successful Update leaves every participation record (snapshots
included) unchanged, keeps the events list the same length, preserves `_id`,
`creatorEmail` and `createdAt` at every position, and leaves every event
whose `_id` differs from the target wholly unchanged. -/
theorem updateEvent_frame (db : DB) (now : Int) (id : String) (req : UpdateReq)
    (ev' : Event) (db' : DB)
    (h : updateEvent db now id req = (Except.ok ev', db')) :
    db'.joined = db.joined
    ∧ db'.events.length = db.events.length
    ∧ ∀ (i : Nat) (dflt : Event),
        (db'.events.getD i dflt)._id = (db.events.getD i dflt)._id
        ∧ (db'.events.getD i dflt).creatorEmail = (db.events.getD i dflt).creatorEmail
        ∧ (db'.events.getD i dflt).createdAt = (db.events.getD i dflt).createdAt
        ∧ ((db.events.getD i dflt)._id ≠ id →
            db'.events.getD i dflt = db.events.getD i dflt) := by
  rw [updateEvent] at h
  split at h
  · simp at h
  · split at h
    · simp at h
    · split at h
      · simp at h
      · rename_i existing hfind
        split at h
        · simp at h
        · split at h
          · simp at h
          · split at h
            · simp at h
            · rename_i d hparse
              split at h
              · simp at h
              · simp only [Prod.mk.injEq, Except.ok.injEq] at h
                obtain ⟨hev, hdb⟩ := h
                subst hdb
                refine ⟨rfl, updateFirst_length _ _ _, ?_⟩
                intro i dflt
                rcases updateFirst_getD (fun e => e._id == id) (setMutableFields req d)
                    db.events i dflt with hsame | ⟨hch, hp⟩
                · rw [hsame]
                  exact ⟨rfl, rfl, rfl, fun _ => rfl⟩
                · rw [hch]
                  refine ⟨rfl, rfl, rfl, ?_⟩
                  intro hne
                  exact absurd (by simpa using hp) hne

/-- Witness for C9: the concrete successful update of `evW` by its creator. -/
theorem updateEvent_frame_witness :
    updateEvent dbW 0 goodId reqW = (Except.ok evW2, dbW3)
    ∧ (dbW3.joined = dbW.joined
       ∧ dbW3.events.length = dbW.events.length
       ∧ ∀ (i : Nat) (dflt : Event),
          (dbW3.events.getD i dflt)._id = (dbW.events.getD i dflt)._id
          ∧ (dbW3.events.getD i dflt).creatorEmail = (dbW.events.getD i dflt).creatorEmail
          ∧ (dbW3.events.getD i dflt).createdAt = (dbW.events.getD i dflt).createdAt
          ∧ ((dbW.events.getD i dflt)._id ≠ goodId →
              dbW3.events.getD i dflt = dbW.events.getD i dflt)) :=
  ⟨rfl, updateEvent_frame dbW 0 goodId reqW evW2 dbW3 rfl⟩

/-! ### C10 — join ignores the referenced event's date -/

/-- C10: join performs no check on the referenced event's `eventDate` — the
hypotheses place no constraint on it at all, so join succeeds even for an
event whose date is already in the past at the moment of the call. -/
theorem joinEvent_ignores_eventDate (db : DB) (now : Int) (eid em : String) (ev : Event)
    (hv : objectIdIsValid eid = true) (hem : em ≠ "")
    (hf : db.events.find? (fun e => e._id == eid) = some ev)
    (hn : db.joined.find? (fun p => p.eventId == ev._id && p.userEmail == em) = none) :
    ∃ j : Participation, (joinEvent db now eid em).fst = Except.ok j := by
  refine ⟨{ eventId := ev._id, userEmail := em, joinedAt := now,
            eventTitle := ev.title, eventType := ev.eventType,
            thumbnail := ev.thumbnail, location := ev.location,
            eventDate := ev.eventDate, creatorEmail := ev.creatorEmail }, ?_⟩
  rw [joinEvent]
  simp [objectIdIsValid_ne_empty hv, hem, hv, hf, hn]

/-- Witness for C10: joining `evW` at time 5000, when its `eventDate` 1000 is
already in the past, still succeeds. -/
theorem joinEvent_ignores_eventDate_witness :
    evW.eventDate < 5000
    ∧ objectIdIsValid goodId = true ∧ ("u@x.com" : String) ≠ ""
    ∧ dbW.events.find? (fun e => e._id == goodId) = some evW
    ∧ dbW.joined.find? (fun p => p.eventId == evW._id && p.userEmail == "u@x.com") = none
    ∧ ∃ j : Participation, (joinEvent dbW 5000 goodId "u@x.com").fst = Except.ok j :=
  ⟨by decide, by decide, by decide, rfl, rfl,
   joinEvent_ignores_eventDate dbW 5000 goodId "u@x.com" evW (by decide) (by decide)
     rfl rfl⟩

end SocialEvents
